import Mathlib

/-!
Verification of the SolarLandscaping backend core against its source.

The development shallowly embeds the Python code of
`src/backend/services/s3_service.py`, `src/backend/services/geocoding_service.py`
and the utility lookup used by `src/backend/main.py`, and proves the stated
properties about those embeddings.

Modelling conventions:
  - Decoded JSON values are the inductive `Json`; numbers are rationals.
    JSON objects are association lists with unique keys (the shape the JSON
    decoder produces: on duplicate keys the decoder keeps one binding, so
    lookups are unambiguous).
  - Network and store faults are injected as explicit parameters
    (`Option String` fault oracles, a `Transport` result), since those are
    environmental inputs of the code.
  - Python exceptions become `Except` error values.  The S3 service raises
    plain `Exception(message)` everywhere, so its error type is the message
    `String`; the geocoding parser distinguishes exception classes, so its
    error type is the inductive `PyExc`.  The detail text an interpreter puts
    into a built-in exception is abstracted to the class name (no property
    below depends on that text).
  - `json.loads` on raw bytes is abstracted by `StoredVal`: an object either
    does not exist, exists with undecodable content, or exists and decodes to
    a `Json` value.
-/

set_option maxHeartbeats 1000000

/-- Decoded JSON values (result of the JSON decoding step). -/
inductive Json where
  | null : Json
  | bool (b : Bool) : Json
  | num (q : Rat) : Json
  | str (s : String) : Json
  | arr (xs : List Json) : Json
  | obj (fields : List (String × Json)) : Json

/-- Python truthiness (`bool(v)`) of a decoded JSON value: `None`, `False`,
`0`, `""`, `[]` and `{}` are falsy, everything else truthy. -/
def pyTruthy : Json → Bool
  | .null => false
  | .bool b => b
  | .num q => !(q == 0)
  | .str s => !s.data.isEmpty
  | .arr xs => !xs.isEmpty
  | .obj fs => !fs.isEmpty

/-- State of the single S3 object an operation touches: it does not exist,
it exists but its content is not valid JSON (`json.loads` raises), or it
exists and decodes to a JSON value. -/
inductive StoredVal where
  | absent : StoredVal
  | malformed (msg : String) : StoredVal
  | val (j : Json) : StoredVal

/-- Embedding of `S3Service.read_json_file` (s3_service.py lines 46-81).
`gf` injects a transport fault of `get_object` (a `ClientError` other than
`NoSuchKey`, carrying message `msg`).  On `NoSuchKey` the code returns the
empty dict `{}`; on undecodable content it raises
`Exception("Invalid JSON in S3 file: " + msg)`; on a transport fault it
raises `Exception("Failed to read file from S3: " + msg)`. -/
def read_json_file (stored : StoredVal) (gf : Option String) : Except String Json :=
  match gf with
  | some msg => .error ("Failed to read file from S3: " ++ msg)
  | none =>
    match stored with
    | .absent => .ok (Json.obj [])
    | .malformed msg => .error ("Invalid JSON in S3 file: " ++ msg)
    | .val j => .ok j

/-- Embedding of `S3Service.write_json_file` (s3_service.py lines 83-112).
`pf` injects a transport fault of `put_object`; on fault the code raises
`Exception("Failed to write file to S3: " + msg)`. -/
def write_json_file (data : Json) (pf : Option String) : Except String Unit :=
  match pf with
  | some msg => .error ("Failed to write file to S3: " ++ msg)
  | none => .ok ()

/-- Embedding of `S3Service.append_to_json_array` (s3_service.py lines
114-155).  Returns the call's outcome together with the stored state after
the call (a failed read or a failed put leaves the object as it was).
The outer `except Exception` of the source catches any error from the read
or the write and re-raises `Exception("Failed to append to JSON file: " +
str(error))`. -/
def append_to_json_array (stored : StoredVal) (gf pf : Option String)
    (new_item : Json) : Except String Unit × StoredVal :=
  match read_json_file stored gf with
  | .error e => (.error ("Failed to append to JSON file: " ++ e), stored)
  | .ok existing0 =>
    -- `if not existing_data: existing_data = []` (line 135)
    let existing1 := if pyTruthy existing0 then existing0 else Json.arr []
    -- `if not isinstance(existing_data, list): existing_data = [existing_data]` (line 139)
    let existing2 : List Json :=
      match existing1 with
      | .arr xs => xs
      | other => [other]
    -- `existing_data.append(new_item)` (line 146), then write back (line 149)
    let final := Json.arr (existing2 ++ [new_item])
    match write_json_file final pf with
    | .error e => (.error ("Failed to append to JSON file: " ++ e), stored)
    | .ok _ => (.ok (), .val final)

/-- Claim C1: whenever `append_to_json_array` succeeds, the stored value
afterwards is a JSON array whose last element is the appended item, with all
prior array elements preserved in order before it; appending to an absent
key yields exactly the one-element array `[item]`. -/
theorem c1_successful_append_shape
    (stored : StoredVal) (gf pf : Option String) (item : Json)
    (h : (append_to_json_array stored gf pf item).1 = .ok ()) :
    ∃ xs, (append_to_json_array stored gf pf item).2 = .val (.arr (xs ++ [item]))
      ∧ (∀ ys, stored = .val (.arr ys) → xs = ys)
      ∧ (stored = .absent → xs = []) := by
  cases gf with
  | some m => simp [append_to_json_array, read_json_file] at h
  | none =>
    cases pf with
    | some m =>
      cases stored <;>
        simp [append_to_json_array, read_json_file, write_json_file] at h
    | none =>
      cases stored with
      | absent =>
        refine ⟨[], rfl, ?_, ?_⟩
        · intro ys hys
          exact nomatch hys
        · intro _
          rfl
      | malformed msg =>
        simp [append_to_json_array, read_json_file] at h
      | val j =>
        cases j with
        | arr ys =>
          refine ⟨ys, ?_, ?_, ?_⟩
          · cases ys with
            | nil => rfl
            | cons y ys => rfl
          · intro zs hzs
            injection hzs with hj
            injection hj with hl
          · intro hab
            exact nomatch hab
        | null =>
          refine ⟨[], rfl, ?_, ?_⟩
          · intro ys hys
            exact nomatch hys
          · intro hab
            exact nomatch hab
        | bool b =>
          refine ⟨if b then [Json.bool b] else [], ?_, ?_, ?_⟩
          · cases b <;> rfl
          · intro ys hys
            exact nomatch hys
          · intro hab
            exact nomatch hab
        | num q =>
          refine ⟨if q == 0 then [] else [Json.num q], ?_, ?_, ?_⟩
          · by_cases hq : q = 0
            · subst hq
              rfl
            · simp [append_to_json_array, read_json_file, write_json_file,
                pyTruthy, hq]
          · intro ys hys
            exact nomatch hys
          · intro hab
            exact nomatch hab
        | str s =>
          refine ⟨if s.data.isEmpty then [] else [Json.str s], ?_, ?_, ?_⟩
          · by_cases hs : s.data.isEmpty
            · simp [append_to_json_array, read_json_file, write_json_file,
                pyTruthy, hs]
            · simp [append_to_json_array, read_json_file, write_json_file,
                pyTruthy, hs]
          · intro ys hys
            exact nomatch hys
          · intro hab
            exact nomatch hab
        | obj fs =>
          refine ⟨if fs.isEmpty then [] else [Json.obj fs], ?_, ?_, ?_⟩
          · cases fs <;> rfl
          · intro ys hys
            exact nomatch hys
          · intro hab
            exact nomatch hab

/-- Witness for C1: appending `"x"` to a stored two-element array succeeds
and yields the three-element array with `"x"` last. -/
theorem c1_witness :
    ∃ xs, (append_to_json_array (.val (.arr [Json.num 1, Json.num 2]))
        none none (Json.str "x")).2 = .val (.arr (xs ++ [Json.str "x"]))
      ∧ (∀ ys, StoredVal.val (.arr [Json.num 1, Json.num 2]) = .val (.arr ys) → xs = ys)
      ∧ (StoredVal.val (.arr [Json.num 1, Json.num 2]) = .absent → xs = []) :=
  c1_successful_append_shape (.val (.arr [Json.num 1, Json.num 2]))
    none none (Json.str "x") rfl

/-- Counterexample to claim C2 as stated: the empty object `{}` is present
and is not a JSON array, yet appending discards it and yields `["x"]`, not
`[{}, "x"]` — the falsiness check on line 135 runs before the wrap on
line 139. -/
theorem c2_counterexample :
    append_to_json_array (.val (Json.obj [])) none none (Json.str "x")
      = (.ok (), .val (Json.arr [Json.str "x"]))
    ∧ append_to_json_array (.val (Json.obj [])) none none (Json.str "x")
      ≠ (.ok (), .val (Json.arr [Json.obj [], Json.str "x"])) := by
  constructor
  · rfl
  · intro h
    have h2 := congrArg Prod.snd h
    simp only [append_to_json_array, read_json_file, write_json_file,
      pyTruthy] at h2
    cases h2

/-- Claim C2 (amended): for every stored value that is present, truthy in
Python's sense (so not `{}`, `""`, `0`, `false` or `null`) and not a JSON
array, appending wraps it and yields the two-element array
`[original_value, item]` without failing. -/
theorem c2_truthy_nonarray_wrapped (v item : Json)
    (ht : pyTruthy v = true) (hn : ∀ xs, v ≠ Json.arr xs) :
    append_to_json_array (.val v) none none item
      = (.ok (), .val (Json.arr [v, item])) := by
  cases v with
  | arr xs => exact absurd rfl (hn xs)
  | null => cases ht
  | bool b =>
    cases b with
    | false => cases ht
    | true => rfl
  | num q =>
    simp only [pyTruthy, Bool.not_eq_eq_eq_not, Bool.not_true, beq_eq_false_iff_ne,
      ne_eq] at ht
    simp [append_to_json_array, read_json_file, write_json_file, pyTruthy, ht]
  | str s =>
    simp only [pyTruthy, Bool.not_eq_eq_eq_not, Bool.not_true] at ht
    simp [append_to_json_array, read_json_file, write_json_file, pyTruthy, ht]
  | obj fs =>
    cases fs with
    | nil => cases ht
    | cons f fs => rfl

/-- Witness for C2 (amended): a stored one-field object is wrapped, giving
`[{"a": 1}, "x"]`. -/
theorem c2_witness :
    pyTruthy (Json.obj [("a", Json.num 1)]) = true
    ∧ append_to_json_array (.val (Json.obj [("a", Json.num 1)])) none none
        (Json.str "x")
      = (.ok (), .val (Json.arr [Json.obj [("a", Json.num 1)], Json.str "x"])) :=
  ⟨rfl, c2_truthy_nonarray_wrapped (Json.obj [("a", Json.num 1)]) (Json.str "x")
    rfl (by intro xs h; cases h)⟩

/-- Counterexample to claim C4 as stated: a transport fault of the
underlying read surfaces from `append_to_json_array` as a *new* exception
with message `"Failed to append to JSON file: ..."`, not as the step-1
StoreError `"Failed to read file from S3: boom"` unchanged — the outer
`except` on lines 153-155 rewraps it. -/
theorem c4_counterexample :
    (append_to_json_array .absent (some "boom") none (Json.str "x")).1
      = .error ("Failed to append to JSON file: Failed to read file from S3: boom")
    ∧ (append_to_json_array .absent (some "boom") none (Json.str "x")).1
      ≠ .error ("Failed to read file from S3: boom") := by
  refine ⟨rfl, ?_⟩
  intro h
  simp only [append_to_json_array, read_json_file] at h
  have := Except.error.inj h
  exact absurd this (by decide)

/-- Claim C4 (amended): any failure of the step-1 read or the step-5 write
makes `append_to_json_array` fail — with the original error message wrapped
as `"Failed to append to JSON file: " + message`, not unchanged — with no
retry, and leaves the stored log exactly as it was. -/
theorem c4_failure_wrapped_log_unchanged
    (stored : StoredVal) (gf pf : Option String) (item : Json) :
    (∀ e, read_json_file stored gf = .error e →
      append_to_json_array stored gf pf item
        = (.error ("Failed to append to JSON file: " ++ e), stored))
    ∧ (∀ j m, read_json_file stored gf = .ok j → pf = some m →
      append_to_json_array stored gf pf item
        = (.error ("Failed to append to JSON file: "
            ++ ("Failed to write file to S3: " ++ m)), stored)) := by
  constructor
  · intro e he
    simp [append_to_json_array, he]
  · intro j m hj hm
    subst hm
    simp [append_to_json_array, hj, write_json_file]

/-- Witness for C4 (amended): concrete read-fault and write-fault calls both
fail wrapped and leave the stored array untouched. -/
theorem c4_witness :
    append_to_json_array (.val (.arr [])) (some "boom") none (Json.str "x")
      = (.error ("Failed to append to JSON file: "
          ++ "Failed to read file from S3: boom"), .val (.arr []))
    ∧ append_to_json_array (.val (.arr [])) none (some "nope") (Json.str "x")
      = (.error ("Failed to append to JSON file: "
          ++ ("Failed to write file to S3: " ++ "nope")), .val (.arr [])) :=
  ⟨(c4_failure_wrapped_log_unchanged (.val (.arr [])) (some "boom") none
      (Json.str "x")).1 _ rfl,
   (c4_failure_wrapped_log_unchanged (.val (.arr [])) none (some "nope")
      (Json.str "x")).2 (.arr []) "nope" rfl rfl⟩

/-- Claim C6: the store read returns the empty structure `{}` (not an
error) when the object does not exist; it fails with the DecodeError
exception exactly when the object exists but its content is not valid JSON;
and it fails with the StoreError exception on any other transport fault. -/
theorem c6_read_error_taxonomy (stored : StoredVal) :
    (read_json_file .absent none = .ok (Json.obj []))
    ∧ (∀ d, read_json_file (.malformed d) none
        = .error ("Invalid JSON in S3 file: " ++ d))
    ∧ (∀ e, read_json_file stored none = .error e →
        ∃ d, stored = .malformed d ∧ e = "Invalid JSON in S3 file: " ++ d)
    ∧ (∀ m, read_json_file stored (some m)
        = .error ("Failed to read file from S3: " ++ m)) := by
  refine ⟨rfl, fun d => rfl, ?_, fun m => rfl⟩
  intro e he
  cases stored with
  | absent => cases he
  | malformed d =>
    refine ⟨d, rfl, ?_⟩
    have := Except.error.inj he
    exact this.symm
  | val j => cases he

/-- Witness for C6: a decode failure is exactly the malformed-content case. -/
theorem c6_witness :
    ∃ d, StoredVal.malformed "oops" = .malformed d
      ∧ "Invalid JSON in S3 file: oops" = "Invalid JSON in S3 file: " ++ d :=
  (c6_read_error_taxonomy (.malformed "oops")).2.2.1
    "Invalid JSON in S3 file: oops" rfl

/-- Claim C8: every falsy stored JSON value — `{}`, `""`, `0`, `false`,
`null` — is discarded by the append, which yields exactly `[item]`; and a
stored empty object is indistinguishable from an absent key through both
public operations (same read result, same append behaviour under every
fault pattern). -/
theorem c8_falsy_discarded (item : Json) :
    append_to_json_array (.val (Json.obj [])) none none item
      = (.ok (), .val (.arr [item]))
    ∧ append_to_json_array (.val (Json.str "")) none none item
      = (.ok (), .val (.arr [item]))
    ∧ append_to_json_array (.val (Json.num 0)) none none item
      = (.ok (), .val (.arr [item]))
    ∧ append_to_json_array (.val (Json.bool false)) none none item
      = (.ok (), .val (.arr [item]))
    ∧ append_to_json_array (.val Json.null) none none item
      = (.ok (), .val (.arr [item]))
    ∧ (∀ gf pf, (append_to_json_array (.val (Json.obj [])) gf pf item).1
        = (append_to_json_array .absent gf pf item).1
      ∧ ((append_to_json_array (.val (Json.obj [])) gf pf item).1 = .ok () →
          (append_to_json_array (.val (Json.obj [])) gf pf item).2
            = (append_to_json_array .absent gf pf item).2))
    ∧ (∀ gf, read_json_file (.val (Json.obj [])) gf = read_json_file .absent gf) := by
  refine ⟨rfl, rfl, rfl, rfl, rfl, ?_, ?_⟩
  · intro gf pf
    cases gf with
    | some m => exact ⟨rfl, by intro h; cases h⟩
    | none =>
      cases pf with
      | some m => exact ⟨rfl, by intro h; cases h⟩
      | none => exact ⟨rfl, fun _ => rfl⟩
  · intro gf
    cases gf with
    | some m => rfl
    | none => rfl

/-- Python exception classes distinguished by the geocoding code.  The
parser's handler catches `(KeyError, ValueError, TypeError)`; pydantic's
`ValidationError` is a `ValueError` subclass, so it would also be caught
there; `AttributeError` and `IndexError` are caught by neither that handler
nor `except httpx.HTTPError`. -/
inductive PyExc where
  | keyError : PyExc
  | valueError : PyExc
  | typeError : PyExc
  | attributeError : PyExc
  | indexError : PyExc
  | validationError : PyExc
deriving DecidableEq

/-- The `str(error)` text of an exception, abstracted to the class name
(the detail text an interpreter attaches is environment-specific and no
property below depends on it). -/
def pyExcMsg : PyExc → String
  | .keyError => "KeyError"
  | .valueError => "ValueError"
  | .typeError => "TypeError"
  | .attributeError => "AttributeError"
  | .indexError => "IndexError"
  | .validationError => "ValidationError"

/-- Python `d.get(k, default)`: lookup when the value is a JSON object,
AttributeError otherwise (`.get` called on a non-dict). -/
def pyDictGet (j : Json) (k : String) (dflt : Json) : Except PyExc Json :=
  match j with
  | .obj fs =>
    match fs.lookup k with
    | some v => .ok v
    | none => .ok dflt
  | _ => .error .attributeError

/-- Python `v[0]`: first element of a list, first character of a string
(IndexError when empty), KeyError on a JSON object (decoded JSON objects
have only string keys, so the integer key 0 is never present), TypeError on
non-subscriptable values. -/
def pyIndex0 : Json → Except PyExc Json
  | .arr [] => .error .indexError
  | .arr (x :: _) => .ok x
  | .str s =>
    match s.data with
    | [] => .error .indexError
    | c :: _ => .ok (.str ⟨[c]⟩)
  | .obj _ => .error .keyError
  | .num _ => .error .typeError
  | .bool _ => .error .typeError
  | .null => .error .typeError

/-- Numeric value of a digit list, most significant digit first. -/
def digitsVal (ds : List Char) : Nat :=
  ds.foldl (fun acc c => acc * 10 + (c.toNat - 48)) 0

/-- Unsigned decimal fragment accepted by Python float conversion of a
string: digits with an optional fractional part ("12", "12.5", "12.",
".5").  Exponent, infinity, nan and underscore forms are outside the
modelled fragment; no property below depends on string-typed coordinate
values. -/
def parseDecimal (cs : List Char) : Option Rat :=
  match cs.span (·.isDigit) with
  | (intPart, rest) =>
    match rest with
    | [] => if intPart.isEmpty then none else some ((digitsVal intPart : Nat) : Rat)
    | '.' :: frac =>
      if frac.all (·.isDigit) && !(intPart.isEmpty && frac.isEmpty) then
        some ((digitsVal intPart : Rat)
          + (digitsVal frac : Rat) / ((10 : Rat) ^ frac.length))
      else none
    | _ => none

/-- Python float conversion of a string: optional surrounding whitespace,
optional sign, then a decimal fragment. -/
def parseFloatStr (s : String) : Option Rat :=
  match s.trim.data with
  | '+' :: rest => parseDecimal rest
  | '-' :: rest => (parseDecimal rest).map (fun q => -q)
  | cs => parseDecimal cs

/-- Python `float(v)` on a decoded JSON value: numbers pass through, bools
become 0 or 1, strings are parsed (ValueError on failure), everything else
raises TypeError. -/
def pyFloat : Json → Except PyExc Rat
  | .num q => .ok q
  | .bool b => .ok (if b then 1 else 0)
  | .str s =>
    match parseFloatStr s with
    | some q => .ok q
    | none => .error .valueError
  | .null => .error .typeError
  | .arr _ => .error .typeError
  | .obj _ => .error .typeError

/-- The `Coordinates` response model (schemas.py lines 24-27). -/
structure Coordinates where
  latitude : Rat
  longitude : Rat
deriving DecidableEq

/-- The `GeocodingApiResponse` response model (schemas.py lines 30-37). -/
structure GeocodingApiResponse where
  matched_address : String
  coordinates : Coordinates
  is_valid : Bool
deriving DecidableEq

/-- Body of `GeocodingService._parse_census_response`
(geocoding_service.py lines 101-125), before its
`except (KeyError, ValueError, TypeError)` handler: every Python operation
that can raise is sequenced explicitly.  Latitude is taken from ordinate
`y` and longitude from ordinate `x` (lines 117-118). -/
def parseCensusBody (data : Json) : Except PyExc (Option Json × Coordinates) :=
  match pyDictGet data "result" (.obj []) with
  | .error e => .error e
  | .ok result =>
    match pyDictGet result "addressMatches" (.arr []) with
    | .error e => .error e
    | .ok address_matches =>
      if pyTruthy address_matches then
        match pyIndex0 address_matches with
        | .error e => .error e
        | .ok best_match =>
          match pyDictGet best_match "matchedAddress" (.str "") with
          | .error e => .error e
          | .ok matched_address =>
            match pyDictGet best_match "coordinates" (.obj []) with
            | .error e => .error e
            | .ok coordinates_data =>
              match pyDictGet coordinates_data "y" (.num 0) with
              | .error e => .error e
              | .ok yv =>
                match pyFloat yv with
                | .error e => .error e
                | .ok latitude =>
                  match pyDictGet coordinates_data "x" (.num 0) with
                  | .error e => .error e
                  | .ok xv =>
                    match pyFloat xv with
                    | .error e => .error e
                    | .ok longitude =>
                      .ok (some matched_address, ⟨latitude, longitude⟩)
      else
        .ok (none, ⟨0, 0⟩)

/-- Exception classes absorbed by the parser's
`except (KeyError, ValueError, TypeError)` handler
(geocoding_service.py line 127); pydantic's ValidationError subclasses
ValueError, so it belongs to the caught set. -/
def caughtByParse : PyExc → Bool
  | .keyError => true
  | .valueError => true
  | .typeError => true
  | .validationError => true
  | .attributeError => false
  | .indexError => false

/-- Embedding of `GeocodingService._parse_census_response`
(geocoding_service.py lines 88-129): the body with its handler, which turns
any caught structural error into the no-match result
`(None, Coordinates(0, 0))`. -/
def parse_census_response (data : Json) : Except PyExc (Option Json × Coordinates) :=
  match parseCensusBody data with
  | .ok r => .ok r
  | .error e => if caughtByParse e then .ok (none, ⟨0, 0⟩) else .error e

/-- Pydantic coercion into the `str`-typed `matchedAddress` field of
`GeocodingApiResponse` (schemas.py line 32): strings pass through, numbers
and booleans coerce via Python `str` (the exact numeral rendering is
abstracted; only the string case is exercised by the properties below),
anything else raises a pydantic ValidationError. -/
def pydanticStr : Json → Except PyExc String
  | .str s => .ok s
  | .num q => .ok (toString q)
  | .bool b => .ok (if b then "True" else "False")
  | .null => .error .validationError
  | .arr _ => .error .validationError
  | .obj _ => .error .validationError

/-- Result of the HTTP call to the Census geocoder as seen by
`validate_address`: a 2xx response whose body decodes to JSON, a 2xx
response whose body is not valid JSON (`response.json()` raises), or an
`httpx.HTTPError` (connect failure, timeout, or `raise_for_status`). -/
inductive Transport where
  | ok (data : Json) : Transport
  | okBadJson (msg : String) : Transport
  | httpError (msg : String) : Transport

/-- The query string built on geocoding_service.py line 45. -/
def full_address_of (address city state zip_code : String) : String :=
  address ++ ", " ++ city ++ ", " ++ state ++ " " ++ zip_code

/-- Embedding of `GeocodingService.validate_address` (geocoding_service.py
lines 21-86).  An `httpx.HTTPError` is wrapped as
`Exception("Failed to validate address: " + msg)` (line 83); any other
exception escaping the body — an undecodable body, an uncaught parse
exception, or a pydantic validation failure while building the response —
is wrapped as `Exception("Address validation failed: " + msg)` (line 86).
A falsy matched address yields the "no match" response built from the
query string (lines 66-73). -/
def validate_address (t : Transport) (address city state zip_code : String) :
    Except String GeocodingApiResponse :=
  let full_address := full_address_of address city state zip_code
  match t with
  | .httpError msg => .error ("Failed to validate address: " ++ msg)
  | .okBadJson msg => .error ("Address validation failed: " ++ msg)
  | .ok data =>
    match parse_census_response data with
    | .error e => .error ("Address validation failed: " ++ pyExcMsg e)
    | .ok (matchedOpt, coords) =>
      match matchedOpt with
      | none => .ok ⟨full_address, ⟨0, 0⟩, false⟩
      | some m =>
        if pyTruthy m then
          match pydanticStr m with
          | .ok str0 => .ok ⟨str0, coords, true⟩
          | .error e => .error ("Address validation failed: " ++ pyExcMsg e)
        else
          .ok ⟨full_address, ⟨0, 0⟩, false⟩

/-- A Census response envelope whose match list is exactly `ms`. -/
def mkResp (ms : List Json) : Json :=
  Json.obj [("result", Json.obj [("addressMatches", Json.arr ms)])]

lemma pyDictGet_error_eq (j : Json) (k : String) (d : Json) (e : PyExc)
    (h : pyDictGet j k d = .error e) : e = .attributeError := by
  cases j with
  | obj fs =>
    cases hl : fs.lookup k <;> simp [pyDictGet, hl] at h
  | null => exact (Except.error.inj h).symm
  | bool b => exact (Except.error.inj h).symm
  | num q => exact (Except.error.inj h).symm
  | str s => exact (Except.error.inj h).symm
  | arr xs => exact (Except.error.inj h).symm

lemma pyDictGet_obj (fs : List (String × Json)) (k : String) (d : Json) :
    pyDictGet (Json.obj fs) k d = .ok ((fs.lookup k).getD d) := by
  cases h : fs.lookup k <;> simp [pyDictGet, h]

lemma pyIndex0_error_of_truthy (j : Json) (e : PyExc)
    (ht : pyTruthy j = true) (h : pyIndex0 j = .error e) :
    e = .keyError ∨ e = .typeError := by
  cases j with
  | arr xs =>
    cases xs with
    | nil => cases ht
    | cons x xs => cases h
  | str s =>
    cases hs : s.data with
    | nil => simp [pyTruthy, hs] at ht
    | cons c cs => simp [pyIndex0, hs] at h
  | obj fs => exact Or.inl (Except.error.inj h).symm
  | num q => exact Or.inr (Except.error.inj h).symm
  | bool b => exact Or.inr (Except.error.inj h).symm
  | null => exact Or.inr (Except.error.inj h).symm

lemma pyFloat_error_mem (j : Json) (e : PyExc) (h : pyFloat j = .error e) :
    e = .valueError ∨ e = .typeError := by
  cases j with
  | num q => exact nomatch h
  | bool b => exact nomatch h
  | str s =>
    cases hp : parseFloatStr s with
    | some q => simp [pyFloat, hp] at h
    | none =>
      rw [pyFloat, hp] at h
      exact Or.inl (Except.error.inj h).symm
  | null => exact Or.inr (Except.error.inj h).symm
  | arr xs => exact Or.inr (Except.error.inj h).symm
  | obj fs => exact Or.inr (Except.error.inj h).symm

lemma caughtByParse_of_mem (e : PyExc)
    (h : e = .valueError ∨ e = .typeError) : caughtByParse e = true := by
  rcases h with h | h <;> subst h <;> rfl

/-- Exhaustive classification of the parser body's outcomes: a first-match
result, the no-match result, or an exception among the four classes the
code can actually raise (never IndexError: indexing is guarded by the
truthiness test, and a truthy list or string is non-empty). -/
lemma parseCensusBody_cases (data : Json) :
    (∃ ma co, parseCensusBody data = .ok (some ma, co))
    ∨ parseCensusBody data = .ok (none, ⟨0, 0⟩)
    ∨ (∃ e, parseCensusBody data = .error e
        ∧ (e = .attributeError ∨ e = .keyError ∨ e = .typeError ∨ e = .valueError)) := by
  cases h1 : pyDictGet data "result" (.obj []) with
  | error e1 =>
    refine Or.inr (Or.inr ⟨e1, ?_, Or.inl (pyDictGet_error_eq _ _ _ _ h1)⟩)
    simp [parseCensusBody, h1]
  | ok result =>
    cases h2 : pyDictGet result "addressMatches" (.arr []) with
    | error e2 =>
      refine Or.inr (Or.inr ⟨e2, ?_, Or.inl (pyDictGet_error_eq _ _ _ _ h2)⟩)
      simp [parseCensusBody, h1, h2]
    | ok ams =>
      by_cases ht : pyTruthy ams = true
      · cases h3 : pyIndex0 ams with
        | error e3 =>
          refine Or.inr (Or.inr ⟨e3, ?_, ?_⟩)
          · simp [parseCensusBody, h1, h2, ht, h3]
          · rcases pyIndex0_error_of_truthy ams e3 ht h3 with h | h
            · exact Or.inr (Or.inl h)
            · exact Or.inr (Or.inr (Or.inl h))
        | ok best =>
          cases h4 : pyDictGet best "matchedAddress" (.str "") with
          | error e4 =>
            refine Or.inr (Or.inr ⟨e4, ?_, Or.inl (pyDictGet_error_eq _ _ _ _ h4)⟩)
            simp [parseCensusBody, h1, h2, ht, h3, h4]
          | ok ma =>
            cases h5 : pyDictGet best "coordinates" (.obj []) with
            | error e5 =>
              refine Or.inr (Or.inr ⟨e5, ?_, Or.inl (pyDictGet_error_eq _ _ _ _ h5)⟩)
              simp [parseCensusBody, h1, h2, ht, h3, h4, h5]
            | ok cd =>
              cases h6 : pyDictGet cd "y" (.num 0) with
              | error e6 =>
                refine Or.inr (Or.inr ⟨e6, ?_, Or.inl (pyDictGet_error_eq _ _ _ _ h6)⟩)
                simp [parseCensusBody, h1, h2, ht, h3, h4, h5, h6]
              | ok yv =>
                cases h7 : pyFloat yv with
                | error e7 =>
                  refine Or.inr (Or.inr ⟨e7, ?_, ?_⟩)
                  · simp [parseCensusBody, h1, h2, ht, h3, h4, h5, h6, h7]
                  · rcases pyFloat_error_mem yv e7 h7 with h | h
                    · exact Or.inr (Or.inr (Or.inr h))
                    · exact Or.inr (Or.inr (Or.inl h))
                | ok lat =>
                  cases h8 : pyDictGet cd "x" (.num 0) with
                  | error e8 =>
                    refine Or.inr (Or.inr ⟨e8, ?_, Or.inl (pyDictGet_error_eq _ _ _ _ h8)⟩)
                    simp [parseCensusBody, h1, h2, ht, h3, h4, h5, h6, h7, h8]
                  | ok xv =>
                    cases h9 : pyFloat xv with
                    | error e9 =>
                      refine Or.inr (Or.inr ⟨e9, ?_, ?_⟩)
                      · simp [parseCensusBody, h1, h2, ht, h3, h4, h5, h6, h7, h8, h9]
                      · rcases pyFloat_error_mem xv e9 h9 with h | h
                        · exact Or.inr (Or.inr (Or.inr h))
                        · exact Or.inr (Or.inr (Or.inl h))
                    | ok lng =>
                      refine Or.inl ⟨ma, ⟨lat, lng⟩, ?_⟩
                      simp [parseCensusBody, h1, h2, ht, h3, h4, h5, h6, h7, h8, h9]
      · refine Or.inr (Or.inl ?_)
        simp [parseCensusBody, h1, h2, ht]

/-- The wrapped parser either returns a first-match result, or the
no-match result, or raises exactly an AttributeError. -/
lemma parse_census_cases (data : Json) :
    (∃ ma co, parse_census_response data = .ok (some ma, co))
    ∨ parse_census_response data = .ok (none, ⟨0, 0⟩)
    ∨ parse_census_response data = .error .attributeError := by
  rcases parseCensusBody_cases data with ⟨ma, co, hb⟩ | hb | ⟨e, hb, he⟩
  · exact Or.inl ⟨ma, co, by rw [parse_census_response, hb]⟩
  · exact Or.inr (Or.inl (by rw [parse_census_response, hb]))
  · rcases he with he | he | he | he
    · subst he
      exact Or.inr (Or.inr (by rw [parse_census_response, hb]; rfl))
    · subst he
      exact Or.inr (Or.inl (by rw [parse_census_response, hb]; rfl))
    · subst he
      exact Or.inr (Or.inl (by rw [parse_census_response, hb]; rfl))
    · subst he
      exact Or.inr (Or.inl (by rw [parse_census_response, hb]; rfl))

lemma validate_of_parse_none (data : Json) (a c s z : String)
    (hp : parse_census_response data = .ok (none, ⟨0, 0⟩)) :
    validate_address (.ok data) a c s z
      = .ok ⟨full_address_of a c s z, ⟨0, 0⟩, false⟩ := by
  simp [validate_address, hp]

lemma validate_of_parse_some_empty (data : Json) (co : Coordinates)
    (a c s z : String)
    (hp : parse_census_response data = .ok (some (.str ""), co)) :
    validate_address (.ok data) a c s z
      = .ok ⟨full_address_of a c s z, ⟨0, 0⟩, false⟩ := by
  have he : pyTruthy (Json.str "") = false := rfl
  simp [validate_address, hp, he]

lemma validate_of_parse_some_str (data : Json) (ma : String) (co : Coordinates)
    (a c s z : String)
    (hp : parse_census_response data = .ok (some (.str ma), co))
    (hma : ma ≠ "") :
    validate_address (.ok data) a c s z = .ok ⟨ma, co, true⟩ := by
  have hd : ma.data.isEmpty = false := by
    cases hm : ma.data with
    | nil =>
      exact absurd (by cases ma; cases hm; rfl) hma
    | cons c cs => rfl
  have he : pyTruthy (Json.str ma) = true := by
    simp [pyTruthy, hd]
  simp [validate_address, hp, he, pydanticStr]

/-- Reduction of the parser body on a response envelope with a non-empty
match list: processing continues with the first candidate. -/
lemma parseCensusBody_cons (cand : Json) (ms : List Json) :
    parseCensusBody (mkResp (cand :: ms))
      = (match pyDictGet cand "matchedAddress" (.str "") with
         | .error e => .error e
         | .ok matched_address =>
           match pyDictGet cand "coordinates" (.obj []) with
           | .error e => .error e
           | .ok coordinates_data =>
             match pyDictGet coordinates_data "y" (.num 0) with
             | .error e => .error e
             | .ok yv =>
               match pyFloat yv with
               | .error e => .error e
               | .ok latitude =>
                 match pyDictGet coordinates_data "x" (.num 0) with
                 | .error e => .error e
                 | .ok xv =>
                   match pyFloat xv with
                   | .error e => .error e
                   | .ok longitude =>
                     .ok (some matched_address, ⟨latitude, longitude⟩)) := rfl

/-- Claim C3 (amended): a reachable response payload whose structural
defects surface inside the parser as KeyError, ValueError or TypeError is
absorbed into the zero-match outcome — in that case `validate_address`
returns the no-match result (`isValid = false`, coordinates `(0,0)`,
matched address = the query string) and the only exception class that can
escape the parser is AttributeError (a non-object where the code calls
`.get`), which — like an undecodable body — escalates to a failure of
`validate_address` instead of being treated as "no match". -/
theorem c3_malformed_payload_behaviour (data : Json) (a c s z : String) :
    (∀ e, parse_census_response data = .error e → e = .attributeError)
    ∧ (∀ co, parse_census_response data = .ok (none, co) →
        co = ⟨0, 0⟩
        ∧ validate_address (.ok data) a c s z
            = .ok ⟨full_address_of a c s z, ⟨0, 0⟩, false⟩) := by
  constructor
  · intro e he
    rcases parse_census_cases data with ⟨ma, co, hb⟩ | hb | hb
    · rw [hb] at he
      exact nomatch he
    · rw [hb] at he
      exact nomatch he
    · rw [hb] at he
      exact (Except.error.inj he).symm
  · intro co hco
    rcases parse_census_cases data with ⟨ma, co2, hb⟩ | hb | hb
    · rw [hb] at hco
      simp at hco
    · refine ⟨?_, validate_of_parse_none _ _ _ _ _ hb⟩
      have h1 := Except.ok.inj (hb.symm.trans hco)
      exact (congrArg Prod.snd h1).symm
    · rw [hb] at hco
      simp at hco

/-- Witness for C3 (amended): the payload `[]` makes the parser raise
AttributeError, and the payload `{}` (no candidates) produces the
no-match result. -/
theorem c3_witness :
    PyExc.attributeError = PyExc.attributeError
    ∧ ((⟨0, 0⟩ : Coordinates) = ⟨0, 0⟩
      ∧ validate_address (.ok (Json.obj [])) "123 Main St" "Springfield" "IL" "62704"
        = .ok ⟨full_address_of "123 Main St" "Springfield" "IL" "62704", ⟨0, 0⟩, false⟩) :=
  ⟨(c3_malformed_payload_behaviour (Json.arr []) "a" "b" "c" "d").1 .attributeError rfl,
    (c3_malformed_payload_behaviour (Json.obj []) "123 Main St" "Springfield" "IL"
      "62704").2 ⟨0, 0⟩ rfl⟩

/-- Counterexample to claim C3 as stated: the malformed-but-reachable
payload whose JSON body is the top-level array `[]` is *not* treated as the
zero-match case — `data.get("result", {})` raises AttributeError on a list,
which escapes the parser's handler and fails `validate_address`. -/
theorem c3_counterexample :
    validate_address (.ok (Json.arr [])) "123 Main St" "Springfield" "IL" "62704"
      = .error ("Address validation failed: " ++ pyExcMsg .attributeError)
    ∧ validate_address (.ok (Json.arr [])) "123 Main St" "Springfield" "IL" "62704"
      ≠ .ok ⟨full_address_of "123 Main St" "Springfield" "IL" "62704", ⟨0, 0⟩, false⟩ :=
  ⟨rfl, fun h => nomatch h⟩

/-- Claim C5 (amended): with zero candidate matches the result is
`isValid = false`, coordinates `(0,0)` and the constructed query string as
matched address; with at least one candidate whose first entry is an object
carrying a non-empty string `matchedAddress` and numeric `x`/`y`
coordinates, the result is `isValid = true` with that address, latitude
taken from `y` and longitude from `x`. -/
theorem c5_zero_and_first_candidate (a c s z ma : String) (ms : List Json)
    (xq yq : Rat) (hma : ma ≠ "") :
    validate_address (.ok (mkResp [])) a c s z
      = .ok ⟨full_address_of a c s z, ⟨0, 0⟩, false⟩
    ∧ validate_address
        (.ok (mkResp (Json.obj [("matchedAddress", Json.str ma),
            ("coordinates", Json.obj [("x", Json.num xq), ("y", Json.num yq)])] :: ms)))
        a c s z
      = .ok ⟨ma, ⟨yq, xq⟩, true⟩ := by
  constructor
  · exact validate_of_parse_none _ _ _ _ _ rfl
  · exact validate_of_parse_some_str _ _ _ _ _ _ _ rfl hma

/-- Witness for C5 (amended): a matched candidate at coordinates
y = 39.8, x = -89.64 yields a valid result with latitude 39.8 and
longitude -89.64. -/
theorem c5_witness :
    validate_address (.ok (mkResp [])) "123 Main St" "Springfield" "IL" "62704"
      = .ok ⟨full_address_of "123 Main St" "Springfield" "IL" "62704", ⟨0, 0⟩, false⟩
    ∧ validate_address
        (.ok (mkResp [Json.obj [("matchedAddress", Json.str "123 MAIN ST, SPRINGFIELD, IL, 62704"),
            ("coordinates", Json.obj [("x", Json.num (-8964/100)), ("y", Json.num (398/10))])]]))
        "123 Main St" "Springfield" "IL" "62704"
      = .ok ⟨"123 MAIN ST, SPRINGFIELD, IL, 62704", ⟨398/10, -8964/100⟩, true⟩ :=
  c5_zero_and_first_candidate "123 Main St" "Springfield" "IL" "62704"
    "123 MAIN ST, SPRINGFIELD, IL, 62704" [] (-8964/100) (398/10)
    (by decide)

/-- Counterexample to claim C5 as stated: a response with one candidate —
the empty object — still yields `isValid = false` (with the query string
as matched address), so "at least one candidate implies `isValid = true`"
fails on the code. -/
theorem c5_counterexample :
    (validate_address (.ok (mkResp [Json.obj []])) "123 Main St" "Springfield"
        "IL" "62704").map GeocodingApiResponse.is_valid = .ok false
    ∧ validate_address (.ok (mkResp [Json.obj []])) "123 Main St" "Springfield"
        "IL" "62704"
      = .ok ⟨"123 Main St, Springfield, IL 62704", ⟨0, 0⟩, false⟩ :=
  ⟨rfl, rfl⟩

/-- Claim C9 (amended): when the first candidate is an object whose
`matchedAddress` is missing or the empty string — and whose `coordinates`
field, if present, is an object — `validate_address` returns the no-match
result (`isValid = false`, query string, coordinates `(0,0)`) even though
the service returned a candidate. -/
theorem c9_empty_matched_no_match (fields : List (String × Json)) (ms : List Json)
    (a c s z : String)
    (hma : fields.lookup "matchedAddress" = none
        ∨ fields.lookup "matchedAddress" = some (Json.str ""))
    (hco : fields.lookup "coordinates" = none
        ∨ ∃ cfs, fields.lookup "coordinates" = some (Json.obj cfs)) :
    validate_address (.ok (mkResp (Json.obj fields :: ms))) a c s z
      = .ok ⟨full_address_of a c s z, ⟨0, 0⟩, false⟩ := by
  have hm : pyDictGet (Json.obj fields) "matchedAddress" (.str "")
      = .ok (.str "") := by
    rcases hma with hma | hma <;> simp [pyDictGet_obj, hma]
  rcases hco with hco | ⟨cfs, hco⟩
  · have hb : parseCensusBody (mkResp (Json.obj fields :: ms))
        = .ok (some (Json.str ""), ⟨0, 0⟩) := by
      simp [parseCensusBody_cons, hm, pyDictGet_obj, hco, pyFloat]
    have hp : parse_census_response (mkResp (Json.obj fields :: ms))
        = .ok (some (Json.str ""), ⟨0, 0⟩) := by
      simp [parse_census_response, hb]
    exact validate_of_parse_some_empty _ _ _ _ _ _ hp
  · have hcd : pyDictGet (Json.obj fields) "coordinates" (.obj [])
        = .ok (Json.obj cfs) := by
      simp [pyDictGet_obj, hco]
    cases h7 : pyFloat ((cfs.lookup "y").getD (.num 0)) with
    | error e7 =>
      have hb : parseCensusBody (mkResp (Json.obj fields :: ms)) = .error e7 := by
        simp [parseCensusBody_cons, hm, hcd, pyDictGet_obj, h7]
      have hp : parse_census_response (mkResp (Json.obj fields :: ms))
          = .ok (none, ⟨0, 0⟩) := by
        have hcat := caughtByParse_of_mem e7 (pyFloat_error_mem _ _ h7)
        simp [parse_census_response, hb, hcat]
      exact validate_of_parse_none _ _ _ _ _ hp
    | ok lat =>
      cases h9 : pyFloat ((cfs.lookup "x").getD (.num 0)) with
      | error e9 =>
        have hb : parseCensusBody (mkResp (Json.obj fields :: ms)) = .error e9 := by
          simp [parseCensusBody_cons, hm, hcd, pyDictGet_obj, h7, h9]
        have hp : parse_census_response (mkResp (Json.obj fields :: ms))
            = .ok (none, ⟨0, 0⟩) := by
          have hcat := caughtByParse_of_mem e9 (pyFloat_error_mem _ _ h9)
          simp [parse_census_response, hb, hcat]
        exact validate_of_parse_none _ _ _ _ _ hp
      | ok lng =>
        have hb : parseCensusBody (mkResp (Json.obj fields :: ms))
            = .ok (some (Json.str ""), ⟨lat, lng⟩) := by
          simp [parseCensusBody_cons, hm, hcd, pyDictGet_obj, h7, h9]
        have hp : parse_census_response (mkResp (Json.obj fields :: ms))
            = .ok (some (Json.str ""), ⟨lat, lng⟩) := by
          simp [parse_census_response, hb]
        exact validate_of_parse_some_empty _ _ _ _ _ _ hp

/-- Witness for C9 (amended): one candidate with an empty `matchedAddress`
and no `coordinates` field yields the no-match result. -/
theorem c9_witness :
    validate_address
        (.ok (mkResp [Json.obj [("matchedAddress", Json.str "")]]))
        "123 Main St" "Springfield" "IL" "62704"
      = .ok ⟨full_address_of "123 Main St" "Springfield" "IL" "62704", ⟨0, 0⟩, false⟩ :=
  c9_empty_matched_no_match [("matchedAddress", Json.str "")] []
    "123 Main St" "Springfield" "IL" "62704" (Or.inr rfl) (Or.inl rfl)

/-- Counterexample to claim C9 as stated: a first candidate with an empty
`matchedAddress` but `"coordinates": null` does *not* produce the default
result — `None.get("y", 0.0)` raises AttributeError, which escapes the
parser's handler and fails `validate_address`. -/
theorem c9_counterexample :
    validate_address
        (.ok (mkResp [Json.obj [("matchedAddress", Json.str ""),
            ("coordinates", Json.null)]]))
        "123 Main St" "Springfield" "IL" "62704"
      = .error ("Address validation failed: " ++ pyExcMsg .attributeError)
    ∧ validate_address
        (.ok (mkResp [Json.obj [("matchedAddress", Json.str ""),
            ("coordinates", Json.null)]]))
        "123 Main St" "Springfield" "IL" "62704"
      ≠ .ok ⟨full_address_of "123 Main St" "Springfield" "IL" "62704", ⟨0, 0⟩, false⟩ :=
  ⟨rfl, fun h => nomatch h⟩

/-- Claim C10: a first candidate that is an object with a non-empty string
`matchedAddress` but no `coordinates` object (or an empty one missing both
`x` and `y`) yields `isValid = true` with coordinates `(0.0, 0.0)` — so
coordinates `(0,0)` in a result do not imply `isValid = false`. -/
theorem c10_valid_with_default_coords (fields cfs : List (String × Json))
    (ms : List Json) (a c s z ma : String)
    (hma : fields.lookup "matchedAddress" = some (Json.str ma)) (hne : ma ≠ "")
    (hco : fields.lookup "coordinates" = none
        ∨ (fields.lookup "coordinates" = some (Json.obj cfs)
            ∧ cfs.lookup "y" = none ∧ cfs.lookup "x" = none)) :
    validate_address (.ok (mkResp (Json.obj fields :: ms))) a c s z
      = .ok ⟨ma, ⟨0, 0⟩, true⟩ := by
  have hm : pyDictGet (Json.obj fields) "matchedAddress" (.str "")
      = .ok (.str ma) := by
    simp [pyDictGet_obj, hma]
  have hb : parseCensusBody (mkResp (Json.obj fields :: ms))
      = .ok (some (Json.str ma), ⟨0, 0⟩) := by
    rcases hco with hco | ⟨hco, hy, hx⟩
    · simp [parseCensusBody_cons, hm, pyDictGet_obj, hco, pyFloat]
    · simp [parseCensusBody_cons, hm, pyDictGet_obj, hco, hy, hx, pyFloat]
  have hp : parse_census_response (mkResp (Json.obj fields :: ms))
      = .ok (some (Json.str ma), ⟨0, 0⟩) := by
    simp [parse_census_response, hb]
  exact validate_of_parse_some_str _ _ _ _ _ _ _ hp hne

/-- Witness for C10: a candidate with address "X" and no coordinates field
gives a valid result at coordinates (0,0). -/
theorem c10_witness :
    validate_address (.ok (mkResp [Json.obj [("matchedAddress", Json.str "X")]]))
        "a" "b" "c" "d"
      = .ok ⟨"X", ⟨0, 0⟩, true⟩ :=
  c10_valid_with_default_coords [("matchedAddress", Json.str "X")] [] []
    "a" "b" "c" "d" "X" rfl (by decide) (Or.inl rfl)

/-- Modelled from the spec: the `UtilityRecord` of §3 (name, service area,
contact info) held by the zip-to-utility cache.  The implementation file
`utility_service.py` is not part of the sources; only its caller
(`main.py` lines 117-144) is. -/
structure UtilityRecord where
  name : String
  service_area : String
  contact_info : String
deriving DecidableEq

/-- Modelled from the spec: the cache state machine of §4.3 — either not
yet loaded, or holding one zip→record mapping. -/
inductive CacheState where
  | emptyCache : CacheState
  | populated (m : List (String × UtilityRecord)) : CacheState

/-- Modelled from the spec: zip normalization (§4.3a) — strip hyphens and
spaces, take the first 5 characters; no digit validation. -/
def normalizeZip (z : String) : String :=
  ((z.replace "-" "").replace " " "").take 5

/-- Modelled from the spec: the sentinel "unknown utility" record (§4.3d):
fixed name "Unknown Utility Company", service area set to the literal
queried zip (the caller's input as given, not its normalized form),
generic contact message. -/
def unknownUtility (zip : String) : UtilityRecord :=
  { name := "Unknown Utility Company"
    service_area := zip
    contact_info := "Please contact your local utility provider" }

/-- Modelled from the spec: decoding one utility record from the stored
blob (§8 scenario: `{"name": ..., "service_area": ..., "contact_info": ...}`). -/
def decodeUtilityRecord : Json → Option UtilityRecord
  | .obj fs =>
    match fs.lookup "name", fs.lookup "service_area", fs.lookup "contact_info" with
    | some (.str n), some (.str sa), some (.str ci) => some ⟨n, sa, ci⟩
    | _, _, _ => none
  | _ => none

/-- Modelled from the spec: shape normalization of the utilities blob
(§4.3 load procedure) — if the decoded value is not a zip→record mapping,
treat it as an empty mapping rather than failing. -/
def decodeUtilityMap : Json → List (String × UtilityRecord)
  | .obj fs =>
    if fs.all (fun p => (decodeUtilityRecord p.2).isSome) then
      fs.filterMap (fun p => (decodeUtilityRecord p.2).map (fun r => (p.1, r)))
    else []
  | _ => []

/-- Modelled from the spec: the load procedure of §4.3 — `get` the
utilities blob through the Object Store Client (the embedded
`read_json_file`), normalizing bad shapes to the empty mapping; the load
fails exactly when the store read fails. -/
def loadUtilities (stored : StoredVal) (gf : Option String) :
    Except String (List (String × UtilityRecord)) :=
  match read_json_file stored gf with
  | .error e => .error e
  | .ok j => .ok (decodeUtilityMap j)

/-- Modelled from the spec: `lookup(zipCode)` of §4.3 / `lookupUtility` of
§6 — normalize, lazily load when the cache is empty (propagating a load
failure and leaving the cache empty), then answer from the mapping; an
absent zip gets the sentinel record built from the literal queried zip
(§4.3d).  Returns the record together with the cache state after the
call. -/
def lookupUtility (st : CacheState) (stored : StoredVal) (gf : Option String)
    (zip : String) : Except String (UtilityRecord × CacheState) :=
  let nz := normalizeZip zip
  match st with
  | .populated m => .ok ((m.lookup nz).getD (unknownUtility zip), .populated m)
  | .emptyCache =>
    match loadUtilities stored gf with
    | .error e => .error e
    | .ok m => .ok ((m.lookup nz).getD (unknownUtility zip), .populated m)

lemma unknownUtility_fields (zip : String) :
    (unknownUtility zip).name = "Unknown Utility Company"
    ∧ (unknownUtility zip).service_area = zip := by
  constructor <;> simp [unknownUtility]

/-- Claim C7: a zip whose normalized form is absent from the populated
mapping gets the sentinel record — fixed name "Unknown Utility Company",
service area equal to the literal queried zip — rather than a failure;
and `lookupUtility` fails only when the cache was empty and the
underlying store read failed during the load. -/
theorem c7_unknown_zip_sentinel (st : CacheState) (stored : StoredVal)
    (gf : Option String) (zip : String) :
    (∀ m, st = .populated m → m.lookup (normalizeZip zip) = none →
      lookupUtility st stored gf zip
        = .ok (unknownUtility zip, .populated m)
      ∧ (unknownUtility zip).name = "Unknown Utility Company"
      ∧ (unknownUtility zip).service_area = zip)
    ∧ (∀ e, lookupUtility st stored gf zip = .error e →
      st = .emptyCache ∧ read_json_file stored gf = .error e) := by
  constructor
  · intro m hst habs
    subst hst
    have h1 : lookupUtility (.populated m) stored gf zip
        = .ok (unknownUtility zip, .populated m) := by
      simp [lookupUtility, habs]
    exact ⟨h1, (unknownUtility_fields zip).1, (unknownUtility_fields zip).2⟩
  · intro e he
    cases st with
    | populated m => exact nomatch he
    | emptyCache =>
      refine ⟨rfl, ?_⟩
      cases hr : read_json_file stored gf with
      | error e2 =>
        rw [lookupUtility] at he
        simp only [loadUtilities, hr] at he
        simp only [Except.error.injEq] at he
        rw [he]
      | ok j =>
        rw [lookupUtility] at he
        simp only [loadUtilities, hr] at he
        exact nomatch he

/-- Witness for C7: the unknown zip "90210-1234" — where the literal query
and its normalized form "90210" differ — gets the sentinel carrying the
literal "90210-1234" as service area, and an empty cache with a failing
store read surfaces exactly that read error. -/
theorem c7_witness :
    (lookupUtility (.populated []) .absent none "90210-1234"
        = .ok (unknownUtility "90210-1234", .populated [])
      ∧ (unknownUtility "90210-1234").name = "Unknown Utility Company"
      ∧ (unknownUtility "90210-1234").service_area = "90210-1234")
    ∧ (CacheState.emptyCache = CacheState.emptyCache
      ∧ read_json_file .absent (some "net down")
          = .error ("Failed to read file from S3: net down")) :=
  ⟨(c7_unknown_zip_sentinel (.populated []) .absent none "90210-1234").1 [] rfl rfl,
    (c7_unknown_zip_sentinel .emptyCache .absent (some "net down") "90210-1234").2
      ("Failed to read file from S3: net down") rfl⟩

/-- Witness for C8: the implication conjunct discharged concretely — the
stored empty object behaves exactly like an absent key on a successful
append of `"x"`. -/
theorem c8_witness :
    append_to_json_array (.val (Json.obj [])) none none (Json.str "x")
      = (.ok (), .val (.arr [Json.str "x"]))
    ∧ (append_to_json_array (.val (Json.obj [])) none none (Json.str "x")).2
      = (append_to_json_array .absent none none (Json.str "x")).2 :=
  ⟨(c8_falsy_discarded (Json.str "x")).1,
    ((c8_falsy_discarded (Json.str "x")).2.2.2.2.2.1 none none).2 rfl⟩
